import Mathlib

/-!
Verification development for the TTSCards imposition engine
(`src/pdf_generation.py`).

The layout pipeline (`generate_pdf`) is embedded at the geometry level:
images are represented by their pixel sizes, every derived quantity
(converted lengths, grid counts, sheet count, grid origin, card slots,
cut-line segments) is translated line by line from the source, and the
observable outcome of a call (unhandled IndexError, logged-error early
return, or a written sequence of composited sheets) is an explicit
`PdfOutcome` value.  Python `int` arithmetic is modelled by `ℤ` with
floor division (`Int.fdiv`) and Python float arithmetic is idealized as
exact rational arithmetic (`ℚ`), with Python's `int()` conversion
modelled by truncation toward zero (`pyInt`).  The per-card resampling
step and the PDF container encoding are external capabilities (spec §6)
and are abstracted to their effect on sizes and placement.

The bleed synthesizer (`generate_bleed_for_image`) is embedded at the
pixel level: a `RasterImage` is a width, a height and a pixel function,
and `crop`, `paste`, `transpose` are given their PIL semantics.
-/

namespace TTS

/-- Python `int()` applied to a (here idealized as exact rational) float:
truncation toward zero. -/
def pyInt (q : ℚ) : ℤ := if q < 0 then ⌈q⌉ else ⌊q⌋

/-- Conversion of a pixel measure given at the 300 dpi reference to output
pixels, from `int(value * dpi / 300)` (src/pdf_generation.py lines 235-239). -/
def to_output_pixels (v : ℤ) (dpi : ℤ) : ℤ := pyInt ((v * dpi : ℚ) / 300)

/-- Conversion of millimeters to output pixels, from
`int(value * dpi / 25.4)` (src/pdf_generation.py lines 240 and 256);
`25.4 = 127/5` exactly. -/
def mm_to_pixels (mm : ℚ) (dpi : ℤ) : ℤ := pyInt (mm * dpi / (127 / 5))

/-- The `Size = namedtuple("Size", ["width", "length"])` of the source. -/
structure Size where
  width : ℤ
  length : ℤ
deriving DecidableEq, Repr

/-- The scalar and policy arguments of `generate_pdf`
(src/pdf_generation.py lines 194-209).  `sheet_size` and `card_length`
are pixels at the 300 dpi reference; `gutter_margin_size` and
`bleed_width` are millimeters.  `output_dir` and `filename` only name
the file written at the end and play no role in the layout. -/
structure PdfConfig where
  sheet_size : ℤ × ℤ
  card_length : ℤ
  dpi : ℤ
  draw_cut_lines : Bool
  generate_bleed : Bool
  sharpen_text : Bool
  gutter_margin_size : ℚ
  cut_lines_on_margin_only : Bool
  no_cut_lines_on_last_sheet : Bool := false
  bleed_width : ℚ := 3 / 2
  line_width : ℤ := 1
deriving DecidableEq

/-- Line 235: `converted_card_length = int(card_length * dpi / 300)`. -/
def converted_card_length (c : PdfConfig) : ℤ := to_output_pixels c.card_length c.dpi

/-- Lines 236-239: both components of the sheet size converted to output dpi. -/
def converted_sheet_size (c : PdfConfig) : ℤ × ℤ :=
  (to_output_pixels c.sheet_size.1 c.dpi, to_output_pixels c.sheet_size.2 c.dpi)

/-- Line 240: `converted_gutter_margin_size = int(gutter_margin_size * dpi / 25.4)`. -/
def converted_gutter_margin_size (c : PdfConfig) : ℤ := mm_to_pixels c.gutter_margin_size c.dpi

/-- Line 248: `card_width = int(converted_card_length * first_card_size[0] / first_card_size[1])`,
where `first` is the pixel size `(width, height)` of `images[0]`. -/
def card_width (first : ℤ × ℤ) (c : PdfConfig) : ℤ :=
  pyInt ((converted_card_length c * first.1 : ℚ) / first.2)

/-- Line 252: the card size before adding bleed. -/
def no_bleed_card_size (first : ℤ × ℤ) (c : PdfConfig) : Size :=
  ⟨card_width first c, converted_card_length c⟩

/-- Lines 254-256: `converted_bleed_size` is 0 unless bleed is enabled, in
which case it is `int(bleed_width * dpi / 25.4)`. -/
def converted_bleed_size (c : PdfConfig) : ℤ :=
  if c.generate_bleed then mm_to_pixels c.bleed_width c.dpi else 0

/-- Line 260: the working card width, after `card_width += 2 * converted_bleed_size`
(a no-op when bleed is disabled, since `converted_bleed_size` is then 0). -/
def working_card_width (first : ℤ × ℤ) (c : PdfConfig) : ℤ :=
  card_width first c + 2 * converted_bleed_size c

/-- Line 261: the working card length, after
`converted_card_length += 2 * converted_bleed_size`. -/
def working_card_length (c : PdfConfig) : ℤ :=
  converted_card_length c + 2 * converted_bleed_size c

/-- Lines 266-268: `num_cards_x = (converted_sheet_size[0] - 2 * converted_gutter_margin_size) // card_width`
with Python floor division. -/
def num_cards_x (first : ℤ × ℤ) (c : PdfConfig) : ℤ :=
  ((converted_sheet_size c).1 - 2 * converted_gutter_margin_size c).fdiv
    (working_card_width first c)

/-- Lines 269-271: `num_cards_y = (converted_sheet_size[1] - 2 * converted_gutter_margin_size) // converted_card_length`. -/
def num_cards_y (first : ℤ × ℤ) (c : PdfConfig) : ℤ :=
  ((converted_sheet_size c).2 - 2 * converted_gutter_margin_size c).fdiv
    (working_card_length c)

/-- Lines 280-282: `num_sheets = (len(images) + num_cards_x * num_cards_y - 1) // (num_cards_x * num_cards_y)`,
where `n` is `len(images)`. -/
def num_sheets (n : ℕ) (first : ℤ × ℤ) (c : PdfConfig) : ℤ :=
  ((n : ℤ) + num_cards_x first c * num_cards_y first c - 1).fdiv
    (num_cards_x first c * num_cards_y first c)

/-- Lines 285-288: the pixel size of the full card grid including gutters. -/
def grid_size (first : ℤ × ℤ) (c : PdfConfig) : ℤ × ℤ :=
  (num_cards_x first c * working_card_width first c + 2 * converted_gutter_margin_size c,
   num_cards_y first c * working_card_length c + 2 * converted_gutter_margin_size c)

/-- Line 292: `start_x = (converted_sheet_size[0] - grid_size[0]) // 2`. -/
def start_x (first : ℤ × ℤ) (c : PdfConfig) : ℤ :=
  ((converted_sheet_size c).1 - (grid_size first c).1).fdiv 2

/-- Line 293: `start_y = (converted_sheet_size[1] - grid_size[1]) // 2`. -/
def start_y (first : ℤ × ℤ) (c : PdfConfig) : ℤ :=
  ((converted_sheet_size c).2 - (grid_size first c).2).fdiv 2

/-- A straight cut-line segment: the two endpoints handed to `draw.line`
together with the stroke width. -/
structure Seg where
  p : ℤ × ℤ
  q : ℤ × ℤ
  w : ℤ
deriving DecidableEq, Repr

/-- The cut-line geometry of `draw_cut_lines_on_sheet`
(src/pdf_generation.py lines 99-191): the list of `draw.line` calls, in
source order (top edges, bottom edges, left edges, right edges).  The
parameters mirror the Python signature; drawing on the PIL sheet is
abstracted to returning the drawn segments. -/
def draw_cut_lines_on_sheet (gen_bleed : Bool) (ccl : ℤ) (sheet : ℤ × ℤ)
    (gutter : ℤ) (cw : ℤ) (no_bleed : Size) (bleed : ℤ)
    (nx ny : ℤ) (sx sy : ℤ) (line_width : ℤ) : List Seg :=
  let small_margin : ℤ := 5
  let bleed_adjustment : ℤ := if gen_bleed then bleed else 0
  let tops := (List.range ny.toNat).map (fun j =>
    let y := sy + bleed_adjustment + (j : ℤ) * (ccl + gutter)
    Seg.mk (small_margin, y) (sheet.1 - small_margin, y) line_width)
  let bottoms := (List.range ny.toNat).map (fun j =>
    let y := sy + bleed_adjustment + no_bleed.length + (j : ℤ) * (ccl + gutter)
    Seg.mk (small_margin, y) (sheet.1 - small_margin, y) line_width)
  let lefts := (List.range nx.toNat).map (fun j =>
    let x := sx + bleed_adjustment + (j : ℤ) * (cw + gutter)
    Seg.mk (x, small_margin) (x, sheet.2 - small_margin) line_width)
  let rights := (List.range nx.toNat).map (fun j =>
    let x := sx + bleed_adjustment + no_bleed.width + (j : ℤ) * (cw + gutter)
    Seg.mk (x, small_margin) (x, sheet.2 - small_margin) line_width)
  tops ++ bottoms ++ lefts ++ rights

/-- The cut-line segments drawn for a sheet of this layout: the argument
list of both calls to `draw_cut_lines_on_sheet` inside `generate_pdf`
(lines 306-320 and 356-370), which are identical; at the call sites
`converted_card_length` and `card_width` hold the bleed-inclusive
working values. -/
def cut_line_segments (first : ℤ × ℤ) (c : PdfConfig) : List Seg :=
  draw_cut_lines_on_sheet c.generate_bleed (working_card_length c)
    (converted_sheet_size c) (converted_gutter_margin_size c)
    (working_card_width first c) (no_bleed_card_size first c)
    (converted_bleed_size c) (num_cards_x first c) (num_cards_y first c)
    (start_x first c) (start_y first c) c.line_width

/-- The guard `not no_cut_lines_on_last_sheet or i < num_sheets - 1`
shared by both cut-line call sites (lines 304 and 354). -/
def cut_lines_guard (n : ℕ) (first : ℤ × ℤ) (c : PdfConfig) (i : ℕ) : Bool :=
  !c.no_cut_lines_on_last_sheet || (i : ℤ) < num_sheets n first c - 1

/-- Segments drawn on sheet `i` before any card is pasted
(lines 301-320: requires `draw_cut_lines` and `cut_lines_on_margin_only`). -/
def sheet_pre_segments (n : ℕ) (first : ℤ × ℤ) (c : PdfConfig) (i : ℕ) : List Seg :=
  if c.draw_cut_lines && c.cut_lines_on_margin_only && cut_lines_guard n first c i then
    cut_line_segments first c
  else []

/-- Segments drawn on sheet `i` after all cards are pasted
(lines 351-370: requires `draw_cut_lines` and not `cut_lines_on_margin_only`). -/
def sheet_post_segments (n : ℕ) (first : ℤ × ℤ) (c : PdfConfig) (i : ℕ) : List Seg :=
  if c.draw_cut_lines && !c.cut_lines_on_margin_only && cut_lines_guard n first c i then
    cut_line_segments first c
  else []

/-- One pasted card: which image lands where, and at what pixel size.
The card is resized to `no_bleed_card_size` (line 329) and, when bleed is
enabled, enlarged by `2 * converted_bleed_size` per axis (line 337), so
the pasted size is the working card size. -/
structure Placement where
  image_index : ℤ
  x : ℤ
  y : ℤ
  pasted_width : ℤ
  pasted_length : ℤ
deriving DecidableEq, Repr

/-- The cards pasted on sheet `i` (lines 322-349): slots `j` iterate over
`range(num_cards_x * num_cards_y)` and the loop breaks once
`i * num_cards_x * num_cards_y + j` reaches `len(images)`;
`x = start_x + (j % num_cards_x) * (card_width + converted_gutter_margin_size)` and
`y = start_y + (j // num_cards_x) * (converted_card_length + converted_gutter_margin_size)`. -/
def sheet_placements (n : ℕ) (first : ℤ × ℤ) (c : PdfConfig) (i : ℕ) : List Placement :=
  let cells : ℤ := num_cards_x first c * num_cards_y first c
  ((List.range cells.toNat).takeWhile
      (fun j => decide ((i : ℤ) * cells + (j : ℤ) < (n : ℤ)))).map
    (fun j =>
      { image_index := (i : ℤ) * cells + (j : ℤ)
        x := start_x first c +
          ((j : ℤ).fmod (num_cards_x first c)) *
            (working_card_width first c + converted_gutter_margin_size c)
        y := start_y first c +
          ((j : ℤ).fdiv (num_cards_x first c)) *
            (working_card_length c + converted_gutter_margin_size c)
        pasted_width := working_card_width first c
        pasted_length := working_card_length c })

/-- One composited output sheet, recording what was drawn and pasted and
in which phase. -/
structure SheetModel where
  pre_segments : List Seg
  placements : List Placement
  post_segments : List Seg
deriving DecidableEq, Repr

/-- The sheet produced by iteration `i` of the sheet loop (lines 298-372). -/
def sheet_model (n : ℕ) (first : ℤ × ℤ) (c : PdfConfig) (i : ℕ) : SheetModel :=
  ⟨sheet_pre_segments n first c i, sheet_placements n first c i,
   sheet_post_segments n first c i⟩

/-- The observable outcome of a `generate_pdf` call:
`indexError` is an unhandled `IndexError` propagating out (a crash),
`layoutAbort` is the `logger.error` + early `return` at lines 273-277
(no sheets built, no file written, plain `None` returned), and
`written sheets` is the successful path that serializes `sheets` to a
PDF (lines 374-384). -/
inductive PdfOutcome where
  | indexError : PdfOutcome
  | layoutAbort : PdfOutcome
  | written : List SheetModel → PdfOutcome
deriving DecidableEq, Repr

/-- The embedding of `generate_pdf` (src/pdf_generation.py lines 194-388).
With an empty image list, `images[0]` at line 247 raises `IndexError`.
If either grid count is zero the function logs an error and returns
early (lines 273-277).  Otherwise the sheets are built in index order;
if the sheet list comes out empty (possible only in pathological
configurations, since `num_sheets` can then be nonpositive),
`sheets[0]` at line 377 raises `IndexError`. -/
def generate_pdf (images : List (ℤ × ℤ)) (c : PdfConfig) : PdfOutcome :=
  match images with
  | [] => .indexError
  | first :: _ =>
    if num_cards_x first c = 0 ∨ num_cards_y first c = 0 then .layoutAbort
    else
      let sheets := (List.range (num_sheets images.length first c).toNat).map
        (sheet_model images.length first c)
      if sheets.isEmpty then .indexError else .written sheets

/-- The value a Python caller of `generate_pdf` observes: an uncaught
exception (`Except.error`), or the plain `None` return (`Except.ok ()`).
Both the logged-error early return and the successful path return
`None`. -/
def pyReturn : PdfOutcome → Except Unit Unit
  | .indexError => .error ()
  | .layoutAbort => .ok ()
  | .written _ => .ok ()

/-- The number of output pages of an outcome, when any were produced. -/
def numPages : PdfOutcome → Option ℕ
  | .written sheets => some sheets.length
  | _ => none

/-- An RGB color. -/
abbrev Color := ℕ × ℕ × ℕ

/-- The fill used for pixels PIL pads with when a crop box reaches outside
the source image. -/
def blackFill : Color := (0, 0, 0)

/-- The `"white"` fill of `Image.new`. -/
def whiteFill : Color := (255, 255, 255)

/-- A PIL image: a pixel grid of the given width and height.  The pixel
function is total; only its values at coordinates `0 ≤ x < width`,
`0 ≤ y < height` are the image's content. -/
structure RasterImage where
  width : ℕ
  height : ℕ
  pixel : ℤ → ℤ → Color

/-- `Image.new("RGB", size, color)`: a constant image. -/
def image_new (size : ℕ × ℕ) (color : Color) : RasterImage :=
  ⟨size.1, size.2, fun _ _ => color⟩

/-- `image.crop((l, t, r, b))`: the region `[l, r) × [t, b)`, of size
`(r - l, b - t)`; parts of the box outside the source are padded with
zero (black) pixels. -/
def crop (img : RasterImage) (l t r b : ℤ) : RasterImage :=
  ⟨(r - l).toNat, (b - t).toNat, fun x y =>
    if 0 ≤ l + x ∧ l + x < img.width ∧ 0 ≤ t + y ∧ t + y < img.height then
      img.pixel (l + x) (t + y)
    else blackFill⟩

/-- `base.paste(src, pos)`: `src` overwrites the rectangle of `base` whose
top-left corner is `pos`; the canvas keeps its size (PIL clips any
overhang). -/
def paste (base : RasterImage) (src : RasterImage) (pos : ℤ × ℤ) : RasterImage :=
  ⟨base.width, base.height, fun x y =>
    if pos.1 ≤ x ∧ x < pos.1 + src.width ∧ pos.2 ≤ y ∧ y < pos.2 + src.height then
      src.pixel (x - pos.1) (y - pos.2)
    else base.pixel x y⟩

/-- `image.transpose(Image.FLIP_LEFT_RIGHT)`. -/
def flip_left_right (img : RasterImage) : RasterImage :=
  ⟨img.width, img.height, fun x y => img.pixel ((img.width : ℤ) - 1 - x) y⟩

/-- `image.transpose(Image.FLIP_TOP_BOTTOM)`. -/
def flip_top_bottom (img : RasterImage) : RasterImage :=
  ⟨img.width, img.height, fun x y => img.pixel x ((img.height : ℤ) - 1 - y)⟩

/-- The embedding of `generate_bleed_for_image`
(src/pdf_generation.py lines 15-54): crop the four edge strips, build a
white canvas enlarged by `2 * bleed_size` per axis, paste the original
at offset `(bleed_size, bleed_size)`, and paste the four strips mirrored
outward, in source order. -/
def generate_bleed_for_image (image : RasterImage) (bleed_size : ℕ) : RasterImage :=
  let left_region := crop image 0 0 bleed_size image.height
  let bottom_region := crop image 0 ((image.height : ℤ) - bleed_size) image.width image.height
  let right_region := crop image ((image.width : ℤ) - bleed_size) 0 image.width image.height
  let top_region := crop image 0 0 image.width bleed_size
  let new_image := image_new (image.width + 2 * bleed_size, image.height + 2 * bleed_size) whiteFill
  let new_image := paste new_image image ((bleed_size : ℤ), (bleed_size : ℤ))
  let new_image := paste new_image (flip_left_right left_region) (0, (bleed_size : ℤ))
  let new_image := paste new_image (flip_top_bottom bottom_region)
    ((bleed_size : ℤ), (image.height : ℤ) + bleed_size)
  let new_image := paste new_image (flip_left_right right_region)
    ((image.width : ℤ) + bleed_size, (bleed_size : ℤ))
  let new_image := paste new_image (flip_top_bottom top_region) ((bleed_size : ℤ), 0)
  new_image

/-! Concrete fixtures used to instantiate the theorems below. -/

/-- The end-to-end configuration of spec §8: sheet 3060×3960 at 300 dpi,
card length 1254 px, gutter 5 output pixels (127/300 mm converts to
exactly 5 px at 300 dpi), bleed disabled, cut lines disabled. -/
def endToEndConfig : PdfConfig :=
  { sheet_size := (3060, 3960), card_length := 1254, dpi := 300,
    draw_cut_lines := false, generate_bleed := false, sharpen_text := false,
    gutter_margin_size := 127 / 300, cut_lines_on_margin_only := false }

/-- Five 100×50 images, the end-to-end input of spec §8. -/
def endToEndImages : List (ℤ × ℤ) := [(100, 50), (100, 50), (100, 50), (100, 50), (100, 50)]

/-- A configuration whose card is wider than the sheet:
`card_width = int(1254 * 100 / 50) = 2508 > 100 = sheet width`. -/
def impossibleConfig : PdfConfig :=
  { sheet_size := (100, 100), card_length := 1254, dpi := 300,
    draw_cut_lines := false, generate_bleed := false, sharpen_text := false,
    gutter_margin_size := 0, cut_lines_on_margin_only := false }

/-- Two input images of different aspect ratios: the first landscape 2:1,
the second portrait 1:2. -/
def mixedRatioImages : List (ℤ × ℤ) := [(100, 50), (50, 100)]

/-- The grid-planner configuration of spec §8: sheet 2550×3300 at 300 dpi,
card 734×1045, no gutter, no bleed; it yields a 3×3 grid. -/
def pokerGridConfig : PdfConfig :=
  { sheet_size := (2550, 3300), card_length := 1045, dpi := 300,
    draw_cut_lines := false, generate_bleed := false, sharpen_text := false,
    gutter_margin_size := 0, cut_lines_on_margin_only := false }

/-- Ten 734×1045 images for the sheet-count instance `ceil(10/9) = 2`. -/
def tenPokerImages : List (ℤ × ℤ) :=
  List.replicate 10 ((734 : ℤ), (1045 : ℤ))

/-- A family of configurations whose gutter (127/150 mm, i.e. 10 px at
300 dpi) exceeds half the 10 px sheet width, so the usable width
`W - 2g = -10` is negative; `b` is the bleed width in millimeters. -/
def negativeExtentConfig (b : ℚ) : PdfConfig :=
  { sheet_size := (10, 3960), card_length := 2, dpi := 300,
    draw_cut_lines := false, generate_bleed := true, sharpen_text := false,
    gutter_margin_size := 127 / 150, cut_lines_on_margin_only := false,
    bleed_width := b }

/-- A well-behaved configuration with bleed enabled at width 0 mm and no
gutter, used to instantiate the monotonicity theorem. -/
def monotoneBaseConfig : PdfConfig :=
  { sheet_size := (3060, 3960), card_length := 1254, dpi := 300,
    draw_cut_lines := false, generate_bleed := true, sharpen_text := false,
    gutter_margin_size := 0, cut_lines_on_margin_only := false,
    bleed_width := 0 }

/-- A tiny 2×2 image whose four pixels are pairwise distinct. -/
def checkerImage : RasterImage := ⟨2, 2, fun x y => (x.toNat, y.toNat, 7)⟩

/-! Helper lemmas. -/

theorem pyInt_eq_floor_of_nonneg {q : ℚ} (h : 0 ≤ q) : pyInt q = ⌊q⌋ :=
  if_neg (not_lt.2 h)

theorem pyInt_nonneg {q : ℚ} (h : 0 ≤ q) : 0 ≤ pyInt q := by
  rw [pyInt_eq_floor_of_nonneg h]
  exact Int.floor_nonneg.2 h

theorem pyInt_mono {q r : ℚ} (hq : 0 ≤ q) (hqr : q ≤ r) : pyInt q ≤ pyInt r := by
  rw [pyInt_eq_floor_of_nonneg hq, pyInt_eq_floor_of_nonneg (hq.trans hqr)]
  exact Int.floor_le_floor hqr

theorem mm_to_pixels_nonneg {mm : ℚ} {dpi : ℤ} (hmm : 0 ≤ mm) (hdpi : 0 ≤ dpi) :
    0 ≤ mm_to_pixels mm dpi := by
  refine pyInt_nonneg ?_
  have : (0 : ℚ) ≤ (dpi : ℚ) := by exact_mod_cast hdpi
  positivity

theorem mm_to_pixels_mono {mm mm' : ℚ} {dpi : ℤ} (hmm : 0 ≤ mm) (hle : mm ≤ mm')
    (hdpi : 0 ≤ dpi) : mm_to_pixels mm dpi ≤ mm_to_pixels mm' dpi := by
  have hd : (0 : ℚ) ≤ (dpi : ℚ) := by exact_mod_cast hdpi
  refine pyInt_mono (by positivity) ?_
  gcongr

theorem fdiv_mono_num {a b k : ℤ} (hk : 0 < k) (h : a ≤ b) : a.fdiv k ≤ b.fdiv k := by
  rw [Int.fdiv_eq_ediv _ hk.le, Int.fdiv_eq_ediv _ hk.le]
  exact Int.ediv_le_ediv hk h

theorem fdiv_anti_den {n d e : ℤ} (hn : 0 ≤ n) (hd : 0 < d) (hde : d ≤ e) :
    n.fdiv e ≤ n.fdiv d := by
  have he : 0 < e := hd.trans_le hde
  rw [Int.fdiv_eq_ediv _ hd.le, Int.fdiv_eq_ediv _ he.le]
  rw [Int.le_ediv_iff_mul_le hd]
  calc n / e * d ≤ n / e * e :=
        mul_le_mul_of_nonneg_left hde (Int.ediv_nonneg hn he.le)
    _ ≤ n := Int.ediv_mul_le n he.ne'

theorem fdiv_add_sub_one_eq_ceil (a : ℕ) {k : ℤ} (hk : 0 < k) :
    ((a : ℤ) + k - 1).fdiv k = ⌈(a : ℚ) / (k : ℚ)⌉ := by
  have hkQ : (0 : ℚ) < (k : ℚ) := by exact_mod_cast hk
  rw [Int.fdiv_eq_ediv _ hk.le]
  have hmod := Int.ediv_add_emod ((a : ℤ) + k - 1) k
  have hr0 : 0 ≤ ((a : ℤ) + k - 1) % k := Int.emod_nonneg _ hk.ne'
  have hrk : ((a : ℤ) + k - 1) % k < k := Int.emod_lt_of_pos _ hk
  have h1 : (a : ℤ) ≤ ((a : ℤ) + k - 1) / k * k := by
    rw [mul_comm]
    omega
  have h2 : (((a : ℤ) + k - 1) / k - 1) * k < (a : ℤ) := by
    rw [sub_mul, one_mul, mul_comm]
    omega
  symm
  rw [Int.ceil_eq_iff]
  refine ⟨?_, ?_⟩
  · rw [lt_div_iff hkQ]
    exact_mod_cast h2
  · rw [div_le_iff hkQ]
    exact_mod_cast h1

theorem one_le_fdiv {n d : ℤ} (hd : 0 < d) (hdn : d ≤ n) : 1 ≤ n.fdiv d := by
  rw [Int.fdiv_eq_ediv _ hd.le, Int.le_ediv_iff_mul_le hd, one_mul]
  exact hdn

theorem pyInt_intCast_div_pos (a : ℤ) {b : ℤ} (hb : 0 < b) :
    pyInt ((a : ℚ) / (b : ℚ)) = a.tdiv b := by
  have hbQ : (0 : ℚ) < (b : ℚ) := by exact_mod_cast hb
  obtain ⟨n, rfl⟩ := Int.eq_ofNat_of_zero_le hb.le
  by_cases ha : 0 ≤ a
  · have haQ : (0 : ℚ) ≤ (a : ℚ) := by exact_mod_cast ha
    rw [pyInt_eq_floor_of_nonneg (div_nonneg haQ hbQ.le), Int.tdiv_eq_ediv ha hb.le]
    exact_mod_cast Rat.floor_intCast_div_natCast a n
  · push_neg at ha
    have hlt : (a : ℚ) / ((n : ℤ) : ℚ) < 0 :=
      div_neg_of_neg_of_pos (by exact_mod_cast ha) hbQ
    rw [pyInt, if_pos hlt]
    have hceil : ⌈(a : ℚ) / ((n : ℤ) : ℚ)⌉ = -⌊(-a : ℚ) / ((n : ℤ) : ℚ)⌋ := by
      rw [← Int.ceil_neg, neg_div, neg_neg]
    rw [hceil]
    have hfl : ⌊((-a : ℤ) : ℚ) / ((n : ℤ) : ℚ)⌋ = (-a) / (n : ℤ) :=
      by exact_mod_cast Rat.floor_intCast_div_natCast (-a) n
    have htd : a.tdiv (n : ℤ) = -((-a).tdiv (n : ℤ)) := by
      rw [Int.neg_tdiv, neg_neg]
    rw [htd, Int.tdiv_eq_ediv (by omega) hb.le, ← hfl]
    push_cast
    rfl

theorem pyInt_intCast_div (a b : ℤ) : pyInt ((a : ℚ) / (b : ℚ)) = a.tdiv b := by
  rcases lt_trichotomy b 0 with hb | hb | hb
  · have hcast : ((a : ℚ) / (b : ℚ)) = (((-a : ℤ) : ℚ) / ((-b : ℤ) : ℚ)) := by
      push_cast
      rw [neg_div_neg_eq]
    rw [hcast, pyInt_intCast_div_pos (-a) (by omega), Int.neg_tdiv_neg]
  · subst hb
    simp [pyInt]
  · exact pyInt_intCast_div_pos a hb

theorem to_output_pixels_eq_tdiv (v dpi : ℤ) :
    to_output_pixels v dpi = (v * dpi).tdiv 300 := by
  unfold to_output_pixels
  rw [← pyInt_intCast_div (v * dpi) 300]
  congr 1
  push_cast
  ring

theorem card_width_eq_tdiv (first : ℤ × ℤ) (c : PdfConfig) :
    card_width first c = (converted_card_length c * first.1).tdiv first.2 := by
  unfold card_width
  rw [← pyInt_intCast_div (converted_card_length c * first.1) first.2]
  congr 1
  push_cast
  ring

theorem mm_to_pixels_intCast_div (p q dpi : ℤ) (hq : (q : ℚ) ≠ 0) :
    mm_to_pixels ((p : ℚ) / (q : ℚ)) dpi = (p * dpi * 5).tdiv (q * 127) := by
  unfold mm_to_pixels
  rw [← pyInt_intCast_div (p * dpi * 5) (q * 127)]
  congr 1
  push_cast
  field_simp

theorem mm_to_pixels_zero (dpi : ℤ) : mm_to_pixels 0 dpi = 0 := by
  simp [mm_to_pixels, pyInt]

/-! Concrete evaluations of the fixtures, reduced to pure integer
arithmetic through the bridge lemmas above. -/

theorem endToEnd_ccl : converted_card_length endToEndConfig = 1254 := by
  simp only [converted_card_length, to_output_pixels_eq_tdiv]
  decide

theorem endToEnd_sheet : converted_sheet_size endToEndConfig = (3060, 3960) := by
  simp only [converted_sheet_size, to_output_pixels_eq_tdiv]
  decide

theorem endToEnd_gutter : converted_gutter_margin_size endToEndConfig = 5 := by
  simp only [converted_gutter_margin_size]
  rw [show endToEndConfig.gutter_margin_size = ((127 : ℤ) : ℚ) / ((300 : ℤ) : ℚ) by
        norm_num [endToEndConfig],
    mm_to_pixels_intCast_div 127 300 _ (by norm_num)]
  decide

theorem endToEnd_bleed : converted_bleed_size endToEndConfig = 0 := by
  simp [converted_bleed_size, endToEndConfig]

theorem endToEnd_cw : card_width ((100 : ℤ), (50 : ℤ)) endToEndConfig = 2508 := by
  rw [card_width_eq_tdiv, endToEnd_ccl]
  decide

theorem endToEnd_ww : working_card_width ((100 : ℤ), (50 : ℤ)) endToEndConfig = 2508 := by
  simp only [working_card_width]
  rw [endToEnd_cw, endToEnd_bleed]
  decide

theorem endToEnd_wl : working_card_length endToEndConfig = 1254 := by
  simp only [working_card_length]
  rw [endToEnd_ccl, endToEnd_bleed]
  decide

theorem endToEnd_nx : num_cards_x ((100 : ℤ), (50 : ℤ)) endToEndConfig = 1 := by
  simp only [num_cards_x]
  rw [endToEnd_sheet, endToEnd_gutter, endToEnd_ww]
  decide

theorem endToEnd_ny : num_cards_y ((100 : ℤ), (50 : ℤ)) endToEndConfig = 3 := by
  simp only [num_cards_y]
  rw [endToEnd_sheet, endToEnd_gutter, endToEnd_wl]
  decide

theorem endToEnd_sx : start_x ((100 : ℤ), (50 : ℤ)) endToEndConfig = 271 := by
  simp only [start_x, grid_size]
  rw [endToEnd_nx, endToEnd_ww, endToEnd_gutter, endToEnd_sheet]
  decide

theorem endToEnd_sy : start_y ((100 : ℤ), (50 : ℤ)) endToEndConfig = 94 := by
  simp only [start_y, grid_size]
  rw [endToEnd_ny, endToEnd_wl, endToEnd_gutter, endToEnd_sheet]
  decide

theorem endToEnd_ns5 : num_sheets 5 ((100 : ℤ), (50 : ℤ)) endToEndConfig = 2 := by
  simp only [num_sheets]
  rw [endToEnd_nx, endToEnd_ny]
  decide

theorem endToEnd_ns2 : num_sheets 2 ((100 : ℤ), (50 : ℤ)) endToEndConfig = 1 := by
  simp only [num_sheets]
  rw [endToEnd_nx, endToEnd_ny]
  decide

theorem impossible_nx : num_cards_x ((100 : ℤ), (50 : ℤ)) impossibleConfig = 0 := by
  simp only [num_cards_x, working_card_width]
  rw [card_width_eq_tdiv]
  simp only [converted_card_length, converted_sheet_size, to_output_pixels_eq_tdiv,
    converted_gutter_margin_size, converted_bleed_size]
  rw [show impossibleConfig.gutter_margin_size = (0 : ℚ) from rfl, mm_to_pixels_zero]
  decide

theorem impossible_outcome :
    generate_pdf [((100 : ℤ), (50 : ℤ))] impossibleConfig = .layoutAbort := by
  simp only [generate_pdf]
  rw [impossible_nx]
  simp

theorem endToEnd_sheet0 :
    sheet_model 5 ((100 : ℤ), (50 : ℤ)) endToEndConfig 0 =
      ⟨[], [⟨0, 271, 94, 2508, 1254⟩, ⟨1, 271, 1353, 2508, 1254⟩,
            ⟨2, 271, 2612, 2508, 1254⟩], []⟩ := by
  simp only [sheet_model, sheet_pre_segments, sheet_post_segments, sheet_placements,
    cut_lines_guard, endToEnd_nx, endToEnd_ny, endToEnd_sx, endToEnd_sy, endToEnd_ww,
    endToEnd_wl, endToEnd_gutter, endToEnd_ns5]
  decide

theorem endToEnd_sheet1 :
    sheet_model 5 ((100 : ℤ), (50 : ℤ)) endToEndConfig 1 =
      ⟨[], [⟨3, 271, 94, 2508, 1254⟩, ⟨4, 271, 1353, 2508, 1254⟩], []⟩ := by
  simp only [sheet_model, sheet_pre_segments, sheet_post_segments, sheet_placements,
    cut_lines_guard, endToEnd_nx, endToEnd_ny, endToEnd_sx, endToEnd_sy, endToEnd_ww,
    endToEnd_wl, endToEnd_gutter, endToEnd_ns5]
  decide

theorem mixedRatio_sheet0 :
    sheet_model 2 ((100 : ℤ), (50 : ℤ)) endToEndConfig 0 =
      ⟨[], [⟨0, 271, 94, 2508, 1254⟩, ⟨1, 271, 1353, 2508, 1254⟩], []⟩ := by
  simp only [sheet_model, sheet_pre_segments, sheet_post_segments, sheet_placements,
    cut_lines_guard, endToEnd_nx, endToEnd_ny, endToEnd_sx, endToEnd_sy, endToEnd_ww,
    endToEnd_wl, endToEnd_gutter, endToEnd_ns2]
  decide

theorem endToEnd_outcome :
    generate_pdf endToEndImages endToEndConfig = .written
      [⟨[], [⟨0, 271, 94, 2508, 1254⟩, ⟨1, 271, 1353, 2508, 1254⟩,
             ⟨2, 271, 2612, 2508, 1254⟩], []⟩,
       ⟨[], [⟨3, 271, 94, 2508, 1254⟩, ⟨4, 271, 1353, 2508, 1254⟩], []⟩] := by
  simp only [endToEndImages, generate_pdf]
  rw [endToEnd_nx, endToEnd_ny]
  rw [if_neg (by norm_num : ¬((1 : ℤ) = 0 ∨ (3 : ℤ) = 0))]
  rw [show List.length (((100 : ℤ), (50 : ℤ)) ::
      [((100 : ℤ), (50 : ℤ)), ((100 : ℤ), (50 : ℤ)), ((100 : ℤ), (50 : ℤ)),
       ((100 : ℤ), (50 : ℤ))]) = 5 from rfl]
  rw [endToEnd_ns5]
  rw [show ((2 : ℤ).toNat) = 2 from rfl, show List.range 2 = [0, 1] from rfl]
  simp only [List.map_cons, List.map_nil]
  rw [endToEnd_sheet0, endToEnd_sheet1]
  simp [List.isEmpty]

theorem mixedRatio_outcome :
    generate_pdf mixedRatioImages endToEndConfig = .written
      [⟨[], [⟨0, 271, 94, 2508, 1254⟩, ⟨1, 271, 1353, 2508, 1254⟩], []⟩] := by
  simp only [mixedRatioImages, generate_pdf]
  rw [endToEnd_nx, endToEnd_ny]
  rw [if_neg (by norm_num : ¬((1 : ℤ) = 0 ∨ (3 : ℤ) = 0))]
  rw [show List.length (((100 : ℤ), (50 : ℤ)) :: [((50 : ℤ), (100 : ℤ))]) = 2 from rfl]
  rw [endToEnd_ns2]
  rw [show ((1 : ℤ).toNat) = 1 from rfl, show List.range 1 = [0] from rfl]
  simp only [List.map_cons, List.map_nil]
  rw [mixedRatio_sheet0]
  simp [List.isEmpty]

theorem poker_ccl : converted_card_length pokerGridConfig = 1045 := by
  simp only [converted_card_length, to_output_pixels_eq_tdiv]
  decide

theorem poker_sheet : converted_sheet_size pokerGridConfig = (2550, 3300) := by
  simp only [converted_sheet_size, to_output_pixels_eq_tdiv]
  decide

theorem poker_gutter : converted_gutter_margin_size pokerGridConfig = 0 := by
  simp only [converted_gutter_margin_size]
  rw [show pokerGridConfig.gutter_margin_size = (0 : ℚ) from rfl, mm_to_pixels_zero]

theorem poker_bleed : converted_bleed_size pokerGridConfig = 0 := by
  simp [converted_bleed_size, pokerGridConfig]

theorem poker_cw : card_width ((734 : ℤ), (1045 : ℤ)) pokerGridConfig = 734 := by
  rw [card_width_eq_tdiv, poker_ccl]
  decide

theorem poker_ww : working_card_width ((734 : ℤ), (1045 : ℤ)) pokerGridConfig = 734 := by
  simp only [working_card_width]
  rw [poker_cw, poker_bleed]
  decide

theorem poker_wl : working_card_length pokerGridConfig = 1045 := by
  simp only [working_card_length]
  rw [poker_ccl, poker_bleed]
  decide

theorem poker_nx : num_cards_x ((734 : ℤ), (1045 : ℤ)) pokerGridConfig = 3 := by
  simp only [num_cards_x]
  rw [poker_sheet, poker_gutter, poker_ww]
  decide

theorem poker_ny : num_cards_y ((734 : ℤ), (1045 : ℤ)) pokerGridConfig = 3 := by
  simp only [num_cards_y]
  rw [poker_sheet, poker_gutter, poker_wl]
  decide

theorem poker_ns : num_sheets 10 ((734 : ℤ), (1045 : ℤ)) pokerGridConfig = 2 := by
  simp only [num_sheets]
  rw [poker_nx, poker_ny]
  decide

/-! Claim theorems. -/

/-- C9: every unit conversion of the engine — reference-dpi pixels to
output pixels, and millimeters to output pixels — produces its integer
by truncating the exact quotient toward zero (which on the non-negative
inputs below is the floor of the quotient), not by rounding to nearest:
at `v = 5, dpi = 299` the exact quotient `1495/300 ≈ 4.983` converts to
`4` although it rounds to `5`, and at `mm = 1.5, dpi = 300` the exact
quotient `≈ 17.717` converts to `17` although it rounds to `18`. -/
theorem unit_conversions_truncate_toward_zero (v dpi : ℤ) (mm : ℚ)
    (hv : 0 ≤ v) (hdpi : 0 ≤ dpi) (hmm : 0 ≤ mm) :
    to_output_pixels v dpi = ⌊(v * dpi : ℚ) / 300⌋ ∧
    mm_to_pixels mm dpi = ⌊mm * (dpi : ℚ) / (127 / 5)⌋ ∧
    to_output_pixels 5 299 = 4 ∧ round ((5 * 299 : ℚ) / 300) = 5 ∧
    mm_to_pixels (3 / 2) 300 = 17 ∧ round ((3 / 2 : ℚ) * 300 / (127 / 5)) = 18 := by
  have hvQ : (0 : ℚ) ≤ ((v : ℚ) * (dpi : ℚ)) / 300 := by
    have h1 : (0 : ℚ) ≤ (v : ℚ) := by exact_mod_cast hv
    have h2 : (0 : ℚ) ≤ (dpi : ℚ) := by exact_mod_cast hdpi
    positivity
  have hmQ : (0 : ℚ) ≤ mm * (dpi : ℚ) / (127 / 5) := by
    have h2 : (0 : ℚ) ≤ (dpi : ℚ) := by exact_mod_cast hdpi
    positivity
  refine ⟨?_, ?_, ?_, ?_, ?_, ?_⟩
  · exact pyInt_eq_floor_of_nonneg hvQ
  · exact pyInt_eq_floor_of_nonneg hmQ
  · rw [to_output_pixels_eq_tdiv]
    decide
  · rw [round_eq,
      show ((5 * 299 : ℚ) / 300 + 1 / 2) = ((3290 : ℤ) : ℚ) / ((600 : ℕ) : ℚ) by norm_num,
      Rat.floor_intCast_div_natCast]
    decide
  · rw [show (3 / 2 : ℚ) = ((3 : ℤ) : ℚ) / ((2 : ℤ) : ℚ) by norm_num,
      mm_to_pixels_intCast_div 3 2 _ (by norm_num)]
    decide
  · rw [round_eq,
      show ((3 / 2 : ℚ) * 300 / (127 / 5) + 1 / 2) = ((4627 : ℤ) : ℚ) / ((254 : ℕ) : ℚ) by
        norm_num,
      Rat.floor_intCast_div_natCast]
    decide

theorem unit_conversions_truncate_toward_zero_witness :
    (0 : ℤ) ≤ 5 ∧ (0 : ℤ) ≤ 299 ∧ (0 : ℚ) ≤ 3 / 2 ∧
    to_output_pixels 5 299 = ⌊(((5 : ℤ) : ℚ) * ((299 : ℤ) : ℚ)) / 300⌋ :=
  ⟨by decide, by decide, by norm_num,
   (unit_conversions_truncate_toward_zero 5 299 (3 / 2) (by decide) (by decide)
      (by norm_num)).1⟩

/-- C2 (amended): calling the layout with an empty image sequence always
fails through an unhandled `IndexError` raised by `images[0]` at
src/pdf_generation.py line 247 — a crash propagating to the caller, not
a reported `EmptyInputError` value — and in particular never silently
produces a zero-page result. -/
theorem empty_input_crashes (c : PdfConfig) :
    generate_pdf [] c = .indexError ∧
    pyReturn (generate_pdf [] c) = .error () ∧
    numPages (generate_pdf [] c) = none :=
  ⟨rfl, rfl, rfl⟩

/-- C2 counterexample: on the concrete empty input the operation ends in
an unhandled `IndexError` (an uncaught exception, `Except.error`),
refuting the claim that an `EmptyInputError` is reported rather than
crashing. -/
theorem empty_input_counterexample :
    generate_pdf [] endToEndConfig = .indexError ∧
    pyReturn (generate_pdf [] endToEndConfig) = .error () :=
  ⟨rfl, rfl⟩

/-- C1 (amended): when the grid plan yields zero cards per row or per
column, `generate_pdf` reports the failure through the logger and
returns early — no crash, no output pages — but the function returns
plain `None` exactly as on success, so no `LayoutImpossibleError` value
reaches the caller. -/
theorem layout_impossible_aborts (images : List (ℤ × ℤ)) (first : ℤ × ℤ)
    (rest : List (ℤ × ℤ)) (c : PdfConfig) (him : images = first :: rest)
    (h : num_cards_x first c = 0 ∨ num_cards_y first c = 0) :
    generate_pdf images c = .layoutAbort ∧
    pyReturn (generate_pdf images c) = .ok () ∧
    numPages (generate_pdf images c) = none := by
  subst him
  have hout : generate_pdf (first :: rest) c = .layoutAbort := by
    simp [generate_pdf, h]
  refine ⟨hout, ?_, ?_⟩
  · rw [hout]
    rfl
  · rw [hout]
    rfl

theorem layout_impossible_aborts_witness :
    ([((100 : ℤ), (50 : ℤ))] : List (ℤ × ℤ)) = ((100 : ℤ), (50 : ℤ)) :: [] ∧
    (num_cards_x ((100 : ℤ), (50 : ℤ)) impossibleConfig = 0 ∨
      num_cards_y ((100 : ℤ), (50 : ℤ)) impossibleConfig = 0) ∧
    generate_pdf [((100 : ℤ), (50 : ℤ))] impossibleConfig = .layoutAbort :=
  ⟨rfl, Or.inl impossible_nx,
   (layout_impossible_aborts [((100 : ℤ), (50 : ℤ))] ((100 : ℤ), (50 : ℤ)) []
      impossibleConfig rfl (Or.inl impossible_nx)).1⟩

/-- C1 counterexample: with a card wider than the sheet the run aborts
with no pages and no crash, yet the value returned to the caller
(Python `None`, modelled `Except.ok ()`) is identical to the value
returned by a fully successful run — refuting the claim that a
`LayoutImpossibleError` is returned to the caller as an error value. -/
theorem layout_impossible_counterexample :
    generate_pdf [((100 : ℤ), (50 : ℤ))] impossibleConfig = .layoutAbort ∧
    numPages (generate_pdf [((100 : ℤ), (50 : ℤ))] impossibleConfig) = none ∧
    pyReturn (generate_pdf [((100 : ℤ), (50 : ℤ))] impossibleConfig)
      = pyReturn (generate_pdf endToEndImages endToEndConfig) ∧
    numPages (generate_pdf endToEndImages endToEndConfig) = some 2 := by
  refine ⟨impossible_outcome, ?_, ?_, ?_⟩
  · rw [impossible_outcome]
    rfl
  · rw [impossible_outcome, endToEnd_outcome]
    rfl
  · rw [endToEnd_outcome]
    rfl

/-- C4 counterexample: the end-to-end input of spec §8 (five 100×50
images, sheet 3060×3960 at 300 dpi, card length 1254 px, gutter 5 px,
no bleed, no cut lines) produces two output pages, not one: the grid is
1×3 (`card_width = 2508`), so `ceil(5/3) = 2` sheets are written. -/
theorem end_to_end_counterexample :
    numPages (generate_pdf endToEndImages endToEndConfig) = some 2 ∧
    numPages (generate_pdf endToEndImages endToEndConfig) ≠ some 1 := by
  rw [endToEnd_outcome]
  refine ⟨rfl, by decide⟩

/-- C4 (amended): the end-to-end input of spec §8 yields exactly two
output pages, with all five cards placed in row-major order matching
input order (cards 0-2 on the first sheet, cards 3-4 on the second, each
at its grid slot, pasted at the working card size 2508×1254). -/
theorem end_to_end_two_pages :
    generate_pdf endToEndImages endToEndConfig = .written
      [⟨[], [⟨0, 271, 94, 2508, 1254⟩, ⟨1, 271, 1353, 2508, 1254⟩,
             ⟨2, 271, 2612, 2508, 1254⟩], []⟩,
       ⟨[], [⟨3, 271, 94, 2508, 1254⟩, ⟨4, 271, 1353, 2508, 1254⟩], []⟩] :=
  endToEnd_outcome

/-- C3: for every non-empty image list and every configuration whose
working card size fits the usable sheet extent, the grid plan satisfies
`cards_per_row = (W - 2g) // working_width`,
`cards_per_col = (H - 2g) // working_length` (floor division) and
`sheet_count = ceil(num_images / (cards_per_row * cards_per_col))`. -/
theorem grid_plan_formulas (images : List (ℤ × ℤ)) (first : ℤ × ℤ)
    (rest : List (ℤ × ℤ)) (c : PdfConfig) (him : images = first :: rest)
    (hww : 0 < working_card_width first c) (hwl : 0 < working_card_length c)
    (hfw : working_card_width first c
      ≤ (converted_sheet_size c).1 - 2 * converted_gutter_margin_size c)
    (hfh : working_card_length c
      ≤ (converted_sheet_size c).2 - 2 * converted_gutter_margin_size c) :
    num_cards_x first c
        = ((converted_sheet_size c).1 - 2 * converted_gutter_margin_size c).fdiv
            (working_card_width first c) ∧
    num_cards_y first c
        = ((converted_sheet_size c).2 - 2 * converted_gutter_margin_size c).fdiv
            (working_card_length c) ∧
    num_sheets images.length first c
        = ⌈(images.length : ℚ)
            / ((num_cards_x first c * num_cards_y first c : ℤ) : ℚ)⌉ := by
  subst him
  refine ⟨rfl, rfl, ?_⟩
  have hnx : 1 ≤ num_cards_x first c := one_le_fdiv hww hfw
  have hny : 1 ≤ num_cards_y first c := one_le_fdiv hwl hfh
  have hcells : 0 < num_cards_x first c * num_cards_y first c :=
    mul_pos (by omega) (by omega)
  exact fdiv_add_sub_one_eq_ceil ((first :: rest).length) hcells

theorem grid_plan_formulas_witness :
    tenPokerImages = ((734 : ℤ), (1045 : ℤ)) :: List.replicate 9 ((734 : ℤ), (1045 : ℤ)) ∧
    0 < working_card_width ((734 : ℤ), (1045 : ℤ)) pokerGridConfig ∧
    0 < working_card_length pokerGridConfig ∧
    working_card_width ((734 : ℤ), (1045 : ℤ)) pokerGridConfig
      ≤ (converted_sheet_size pokerGridConfig).1
        - 2 * converted_gutter_margin_size pokerGridConfig ∧
    working_card_length pokerGridConfig
      ≤ (converted_sheet_size pokerGridConfig).2
        - 2 * converted_gutter_margin_size pokerGridConfig ∧
    num_sheets tenPokerImages.length ((734 : ℤ), (1045 : ℤ)) pokerGridConfig
      = ⌈(tenPokerImages.length : ℚ)
          / ((num_cards_x ((734 : ℤ), (1045 : ℤ)) pokerGridConfig
              * num_cards_y ((734 : ℤ), (1045 : ℤ)) pokerGridConfig : ℤ) : ℚ)⌉ ∧
    num_cards_x ((734 : ℤ), (1045 : ℤ)) pokerGridConfig = 3 ∧
    num_cards_y ((734 : ℤ), (1045 : ℤ)) pokerGridConfig = 3 ∧
    num_sheets 10 ((734 : ℤ), (1045 : ℤ)) pokerGridConfig = 2 := by
  have h1 : 0 < working_card_width ((734 : ℤ), (1045 : ℤ)) pokerGridConfig := by
    rw [poker_ww]
    decide
  have h2 : 0 < working_card_length pokerGridConfig := by
    rw [poker_wl]
    decide
  have h3 : working_card_width ((734 : ℤ), (1045 : ℤ)) pokerGridConfig
      ≤ (converted_sheet_size pokerGridConfig).1
        - 2 * converted_gutter_margin_size pokerGridConfig := by
    rw [poker_ww, poker_sheet, poker_gutter]
    decide
  have h4 : working_card_length pokerGridConfig
      ≤ (converted_sheet_size pokerGridConfig).2
        - 2 * converted_gutter_margin_size pokerGridConfig := by
    rw [poker_wl, poker_sheet, poker_gutter]
    decide
  exact ⟨rfl, h1, h2, h3, h4,
    (grid_plan_formulas tenPokerImages ((734 : ℤ), (1045 : ℤ))
      (List.replicate 9 ((734 : ℤ), (1045 : ℤ))) pokerGridConfig rfl h1 h2 h3 h4).2.2,
    poker_nx, poker_ny, poker_ns⟩

/-- C5 counterexample: with two input cards of aspect ratios 2:1 and
1:2, the second card is pasted at the fixed size 2508×1254 computed
from the first card — a width/height ratio of 2, not the 1:2 ratio of
that input image — refuting per-card aspect-ratio preservation. -/
theorem resize_aspect_counterexample :
    generate_pdf mixedRatioImages endToEndConfig = .written
      [⟨[], [⟨0, 271, 94, 2508, 1254⟩, ⟨1, 271, 1353, 2508, 1254⟩], []⟩] ∧
    ((2508 : ℚ) / 1254 ≠ (50 : ℚ) / 100) :=
  ⟨mixedRatio_outcome, by norm_num⟩

/-- C5 (amended): every pasted card has the single fixed working card
size derived from the first image's aspect ratio (resize target
`no_bleed_card_size`, line 329, plus bleed when enabled); a card's own
aspect ratio is preserved only when it coincides with that fixed ratio. -/
theorem resize_uniform_size (n : ℕ) (first : ℤ × ℤ) (c : PdfConfig) (i : ℕ)
    (p : Placement) (hp : p ∈ sheet_placements n first c i) :
    p.pasted_width = working_card_width first c ∧
    p.pasted_length = working_card_length c := by
  simp only [sheet_placements, List.mem_map] at hp
  obtain ⟨j, hj, rfl⟩ := hp
  exact ⟨rfl, rfl⟩

theorem resize_uniform_size_witness :
    (⟨1, 271, 1353, 2508, 1254⟩ : Placement) ∈
      sheet_placements 2 ((100 : ℤ), (50 : ℤ)) endToEndConfig 0 ∧
    (⟨1, 271, 1353, 2508, 1254⟩ : Placement).pasted_width
      = working_card_width ((100 : ℤ), (50 : ℤ)) endToEndConfig := by
  have hpl : sheet_placements 2 ((100 : ℤ), (50 : ℤ)) endToEndConfig 0
      = [⟨0, 271, 94, 2508, 1254⟩, ⟨1, 271, 1353, 2508, 1254⟩] :=
    congrArg SheetModel.placements mixedRatio_sheet0
  have hmem : (⟨1, 271, 1353, 2508, 1254⟩ : Placement) ∈
      sheet_placements 2 ((100 : ℤ), (50 : ℤ)) endToEndConfig 0 := by
    rw [hpl]
    decide
  exact ⟨hmem, (resize_uniform_size 2 ((100 : ℤ), (50 : ℤ)) endToEndConfig 0 _ hmem).1⟩

/-- C7: for identical inputs, the cut-line renderer draws exactly the
same list of line segments in margin-only mode as in overlay mode; the
modes differ only in the phase of drawing relative to card pasting
(margin mode draws everything before pasting and nothing after, overlay
mode the reverse), and the pasted placements agree. -/
theorem cut_lines_mode_geometry (n : ℕ) (first : ℤ × ℤ) (c : PdfConfig) (i : ℕ) :
    (sheet_model n first {c with cut_lines_on_margin_only := true} i).pre_segments ++
      (sheet_model n first {c with cut_lines_on_margin_only := true} i).post_segments
    = (sheet_model n first {c with cut_lines_on_margin_only := false} i).pre_segments ++
      (sheet_model n first {c with cut_lines_on_margin_only := false} i).post_segments ∧
    (sheet_model n first {c with cut_lines_on_margin_only := true} i).post_segments = [] ∧
    (sheet_model n first {c with cut_lines_on_margin_only := false} i).pre_segments = [] ∧
    (sheet_model n first {c with cut_lines_on_margin_only := true} i).placements
      = (sheet_model n first {c with cut_lines_on_margin_only := false} i).placements := by
  have h1 : (sheet_model n first {c with cut_lines_on_margin_only := true} i).post_segments
      = [] := by
    simp [sheet_model, sheet_post_segments]
  have h2 : (sheet_model n first {c with cut_lines_on_margin_only := false} i).pre_segments
      = [] := by
    simp [sheet_model, sheet_pre_segments]
  have h3 : (sheet_model n first {c with cut_lines_on_margin_only := true} i).pre_segments
      = (sheet_model n first {c with cut_lines_on_margin_only := false} i).post_segments := by
    simp only [sheet_model, sheet_pre_segments, sheet_post_segments]
    rfl
  refine ⟨?_, h1, h2, rfl⟩
  rw [h1, h2, List.append_nil, List.nil_append, h3]

theorem neg_ccl (b : ℚ) : converted_card_length (negativeExtentConfig b) = 2 := by
  simp only [converted_card_length, to_output_pixels_eq_tdiv]
  rfl

theorem neg_sheet (b : ℚ) : converted_sheet_size (negativeExtentConfig b) = (10, 3960) := by
  simp only [converted_sheet_size, to_output_pixels_eq_tdiv]
  rfl

theorem neg_gutter (b : ℚ) :
    converted_gutter_margin_size (negativeExtentConfig b) = 10 := by
  simp only [converted_gutter_margin_size]
  rw [show (negativeExtentConfig b).gutter_margin_size
        = ((127 : ℤ) : ℚ) / ((150 : ℤ) : ℚ) by norm_num [negativeExtentConfig],
    mm_to_pixels_intCast_div 127 150 _ (by norm_num)]
  rfl

theorem neg_cw (b : ℚ) : card_width ((1 : ℤ), (1 : ℤ)) (negativeExtentConfig b) = 2 := by
  rw [card_width_eq_tdiv, neg_ccl]
  rfl

theorem neg_bleed0 : converted_bleed_size (negativeExtentConfig 0) = 0 := by
  have h : converted_bleed_size (negativeExtentConfig 0) = mm_to_pixels 0 300 := rfl
  rw [h, mm_to_pixels_zero]

theorem neg_bleed4 : converted_bleed_size (negativeExtentConfig (127 / 375)) = 4 := by
  have h : converted_bleed_size (negativeExtentConfig (127 / 375))
      = mm_to_pixels (127 / 375 : ℚ) 300 := rfl
  rw [h, show (127 / 375 : ℚ) = ((127 : ℤ) : ℚ) / ((375 : ℤ) : ℚ) by norm_num,
    mm_to_pixels_intCast_div 127 375 _ (by norm_num)]
  decide

theorem neg_nx0 : num_cards_x ((1 : ℤ), (1 : ℤ)) (negativeExtentConfig 0) = -5 := by
  simp only [num_cards_x, working_card_width]
  rw [neg_sheet, neg_gutter, neg_cw, neg_bleed0]
  decide

theorem neg_nx4 :
    num_cards_x ((1 : ℤ), (1 : ℤ)) (negativeExtentConfig (127 / 375)) = -1 := by
  simp only [num_cards_x, working_card_width]
  rw [neg_sheet, neg_gutter, neg_cw, neg_bleed4]
  decide

theorem mono_ccl : converted_card_length monotoneBaseConfig = 1254 := by
  simp only [converted_card_length, to_output_pixels_eq_tdiv]
  decide

theorem mono_sheet : converted_sheet_size monotoneBaseConfig = (3060, 3960) := by
  simp only [converted_sheet_size, to_output_pixels_eq_tdiv]
  decide

theorem mono_gutter : converted_gutter_margin_size monotoneBaseConfig = 0 := by
  simp only [converted_gutter_margin_size]
  rw [show monotoneBaseConfig.gutter_margin_size = (0 : ℚ) from rfl, mm_to_pixels_zero]

theorem mono_bleed : converted_bleed_size monotoneBaseConfig = 0 := by
  have h : converted_bleed_size monotoneBaseConfig = mm_to_pixels 0 300 := rfl
  rw [h, mm_to_pixels_zero]

theorem mono_cw : card_width ((100 : ℤ), (50 : ℤ)) monotoneBaseConfig = 2508 := by
  rw [card_width_eq_tdiv, mono_ccl]
  decide

/-- C8 counterexample: with a gutter of 127/150 mm (10 px at 300 dpi) on
a 10 px wide sheet the usable width is negative, and raising the bleed
width from 0 mm to 127/375 mm (4 px) raises `cards_per_row` from -5 to
-1 under Python floor division — an increase, refuting unconditional
monotone non-increase in the bleed width. -/
theorem grid_monotonicity_counterexample :
    (negativeExtentConfig 0).bleed_width < (negativeExtentConfig (127 / 375)).bleed_width ∧
    num_cards_x ((1 : ℤ), (1 : ℤ)) (negativeExtentConfig 0) = -5 ∧
    num_cards_x ((1 : ℤ), (1 : ℤ)) (negativeExtentConfig (127 / 375)) = -1 ∧
    ¬(num_cards_x ((1 : ℤ), (1 : ℤ)) (negativeExtentConfig (127 / 375))
        ≤ num_cards_x ((1 : ℤ), (1 : ℤ)) (negativeExtentConfig 0)) := by
  refine ⟨by norm_num [negativeExtentConfig], neg_nx0, neg_nx4, ?_⟩
  rw [neg_nx0, neg_nx4]
  decide

/-- C8 (amended): holding all other inputs fixed, `cards_per_row` and
`cards_per_col` are monotone non-increasing in the gutter margin
unconditionally, and monotone non-increasing in the bleed width
provided the usable sheet extents `W - 2g` and `H - 2g` are
non-negative (when they are negative, Python floor division can make
the negative counts increase toward -1 as bleed grows). -/
theorem grid_monotonicity_amended (first : ℤ × ℤ) (c : PdfConfig) (b1 b2 g1 g2 : ℚ)
    (hbe : c.generate_bleed = true)
    (hb1 : 0 ≤ b1) (hb12 : b1 ≤ b2) (hg1 : 0 ≤ g1) (hg12 : g1 ≤ g2)
    (hdpi : 0 ≤ c.dpi)
    (hcw : 0 < card_width first c) (hccl : 0 < converted_card_length c)
    (hW : 0 ≤ (converted_sheet_size c).1 - 2 * converted_gutter_margin_size c)
    (hH : 0 ≤ (converted_sheet_size c).2 - 2 * converted_gutter_margin_size c)
    (hww : 0 < working_card_width first c) (hwl : 0 < working_card_length c) :
    (num_cards_x first {c with bleed_width := b2}
        ≤ num_cards_x first {c with bleed_width := b1} ∧
      num_cards_y first {c with bleed_width := b2}
        ≤ num_cards_y first {c with bleed_width := b1}) ∧
    (num_cards_x first {c with gutter_margin_size := g2}
        ≤ num_cards_x first {c with gutter_margin_size := g1} ∧
      num_cards_y first {c with gutter_margin_size := g2}
        ≤ num_cards_y first {c with gutter_margin_size := g1}) := by
  have hcb : ∀ b : ℚ, converted_bleed_size {c with bleed_width := b}
      = mm_to_pixels b c.dpi := by
    intro b
    simp [converted_bleed_size, hbe]
  have hkeyx : ∀ b : ℚ, num_cards_x first {c with bleed_width := b}
      = ((converted_sheet_size c).1 - 2 * converted_gutter_margin_size c).fdiv
          (card_width first c + 2 * converted_bleed_size {c with bleed_width := b}) :=
    fun b => rfl
  have hkeyy : ∀ b : ℚ, num_cards_y first {c with bleed_width := b}
      = ((converted_sheet_size c).2 - 2 * converted_gutter_margin_size c).fdiv
          (converted_card_length c + 2 * converted_bleed_size {c with bleed_width := b}) :=
    fun b => rfl
  have hkeygx : ∀ g : ℚ, num_cards_x first {c with gutter_margin_size := g}
      = ((converted_sheet_size c).1 - 2 * mm_to_pixels g c.dpi).fdiv
          (working_card_width first c) :=
    fun g => rfl
  have hkeygy : ∀ g : ℚ, num_cards_y first {c with gutter_margin_size := g}
      = ((converted_sheet_size c).2 - 2 * mm_to_pixels g c.dpi).fdiv
          (working_card_length c) :=
    fun g => rfl
  have hm1 : 0 ≤ mm_to_pixels b1 c.dpi := mm_to_pixels_nonneg hb1 hdpi
  have hm12 : mm_to_pixels b1 c.dpi ≤ mm_to_pixels b2 c.dpi :=
    mm_to_pixels_mono hb1 hb12 hdpi
  have hgm12 : mm_to_pixels g1 c.dpi ≤ mm_to_pixels g2 c.dpi :=
    mm_to_pixels_mono hg1 hg12 hdpi
  refine ⟨⟨?_, ?_⟩, ?_, ?_⟩
  · rw [hkeyx b1, hkeyx b2, hcb b1, hcb b2]
    exact fdiv_anti_den hW (by omega) (by omega)
  · rw [hkeyy b1, hkeyy b2, hcb b1, hcb b2]
    exact fdiv_anti_den hH (by omega) (by omega)
  · rw [hkeygx g1, hkeygx g2]
    exact fdiv_mono_num hww (by omega)
  · rw [hkeygy g1, hkeygy g2]
    exact fdiv_mono_num hwl (by omega)

theorem grid_monotonicity_amended_witness :
    monotoneBaseConfig.generate_bleed = true ∧
    (0 : ℚ) ≤ 0 ∧ (0 : ℚ) ≤ 1 ∧ (0 : ℤ) ≤ monotoneBaseConfig.dpi ∧
    0 < card_width ((100 : ℤ), (50 : ℤ)) monotoneBaseConfig ∧
    0 < converted_card_length monotoneBaseConfig ∧
    0 ≤ (converted_sheet_size monotoneBaseConfig).1
      - 2 * converted_gutter_margin_size monotoneBaseConfig ∧
    0 ≤ (converted_sheet_size monotoneBaseConfig).2
      - 2 * converted_gutter_margin_size monotoneBaseConfig ∧
    0 < working_card_width ((100 : ℤ), (50 : ℤ)) monotoneBaseConfig ∧
    0 < working_card_length monotoneBaseConfig ∧
    num_cards_x ((100 : ℤ), (50 : ℤ)) {monotoneBaseConfig with bleed_width := (1 : ℚ)}
      ≤ num_cards_x ((100 : ℤ), (50 : ℤ)) {monotoneBaseConfig with bleed_width := (0 : ℚ)} := by
  have hcw : 0 < card_width ((100 : ℤ), (50 : ℤ)) monotoneBaseConfig := by
    rw [mono_cw]
    decide
  have hccl : 0 < converted_card_length monotoneBaseConfig := by
    rw [mono_ccl]
    decide
  have hW : 0 ≤ (converted_sheet_size monotoneBaseConfig).1
      - 2 * converted_gutter_margin_size monotoneBaseConfig := by
    rw [mono_sheet, mono_gutter]
    decide
  have hH : 0 ≤ (converted_sheet_size monotoneBaseConfig).2
      - 2 * converted_gutter_margin_size monotoneBaseConfig := by
    rw [mono_sheet, mono_gutter]
    decide
  have hww : 0 < working_card_width ((100 : ℤ), (50 : ℤ)) monotoneBaseConfig := by
    simp only [working_card_width]
    rw [mono_cw, mono_bleed]
    decide
  have hwl : 0 < working_card_length monotoneBaseConfig := by
    simp only [working_card_length]
    rw [mono_ccl, mono_bleed]
    decide
  refine ⟨rfl, le_refl 0, by norm_num, by decide, hcw, hccl, hW, hH, hww, hwl, ?_⟩
  exact (grid_monotonicity_amended ((100 : ℤ), (50 : ℤ)) monotoneBaseConfig 0 1 0 1 rfl
    (le_refl 0) (by norm_num) (le_refl 0) (by norm_num) (by decide)
    hcw hccl hW hH hww hwl).1.1

/-- C6: for every image and every bleed width `b ≥ 0`,
`generate_bleed_for_image` returns an image of size
`(w + 2b, h + 2b)` whose central region at offset `(b, b)` is
pixel-identical to the original; in particular `b = 0` yields a
pixel-for-pixel identical copy at the same size. -/
theorem generate_bleed_sizes_and_center (image : RasterImage) (b : ℕ) (x y : ℤ)
    (hx0 : 0 ≤ x) (hxw : x < image.width) (hy0 : 0 ≤ y) (hyh : y < image.height) :
    (generate_bleed_for_image image b).width = image.width + 2 * b ∧
    (generate_bleed_for_image image b).height = image.height + 2 * b ∧
    (generate_bleed_for_image image b).pixel (x + b) (y + b) = image.pixel x y := by
  refine ⟨rfl, rfl, ?_⟩
  simp only [generate_bleed_for_image, paste, crop, flip_left_right, flip_top_bottom,
    image_new]
  split_ifs <;>
    first
      | (exfalso; omega)
      | (have hx3 : x + (b : ℤ) - (b : ℤ) = x := by ring
         have hy3 : y + (b : ℤ) - (b : ℤ) = y := by ring
         rw [hx3, hy3])

theorem generate_bleed_sizes_and_center_witness :
    (0 : ℤ) ≤ 0 ∧ (0 : ℤ) < checkerImage.width ∧
    (0 : ℤ) ≤ 1 ∧ (1 : ℤ) < checkerImage.height ∧
    (generate_bleed_for_image checkerImage 1).pixel (0 + 1) (1 + 1)
      = checkerImage.pixel 0 1 :=
  ⟨le_refl 0, by decide, by decide, by decide,
   (generate_bleed_sizes_and_center checkerImage 1 0 1 (le_refl 0) (by decide)
      (by decide) (by decide)).2.2⟩

/-- C10: for every image and every bleed width `0 < b ≤ min(w, h)`, the
four `b`-by-`b` corner regions of the bleed output hold only the white
background: the four mirrored edge strips never reach the corners. -/
theorem generate_bleed_corners_white (image : RasterImage) (b : ℕ) (x y : ℤ)
    (hb : 0 < b) (hbw : b ≤ image.width) (hbh : b ≤ image.height)
    (hx0 : 0 ≤ x) (hxw : x < (image.width : ℤ) + 2 * b)
    (hy0 : 0 ≤ y) (hyh : y < (image.height : ℤ) + 2 * b)
    (hcx : x < b ∨ (image.width : ℤ) + b ≤ x)
    (hcy : y < b ∨ (image.height : ℤ) + b ≤ y) :
    (generate_bleed_for_image image b).pixel x y = whiteFill := by
  simp only [generate_bleed_for_image, paste, crop, flip_left_right, flip_top_bottom,
    image_new]
  split_ifs <;> first | rfl | (exfalso; omega)

theorem generate_bleed_corners_white_witness :
    (0 : ℕ) < 1 ∧ 1 ≤ checkerImage.width ∧ 1 ≤ checkerImage.height ∧
    (0 : ℤ) ≤ 3 ∧ (3 : ℤ) < (checkerImage.width : ℤ) + 2 * 1 ∧
    (0 : ℤ) ≤ 0 ∧ (0 : ℤ) < (checkerImage.height : ℤ) + 2 * 1 ∧
    ((3 : ℤ) < 1 ∨ (checkerImage.width : ℤ) + 1 ≤ 3) ∧
    ((0 : ℤ) < 1 ∨ (checkerImage.height : ℤ) + 1 ≤ 0) ∧
    (generate_bleed_for_image checkerImage 1).pixel 3 0 = whiteFill :=
  ⟨Nat.one_pos, by decide, by decide, by decide, by decide, le_refl 0, by decide,
   Or.inr (by decide), Or.inl (by decide),
   generate_bleed_corners_white checkerImage 1 3 0 Nat.one_pos (by decide) (by decide)
     (by decide) (by decide) (le_refl 0) (by decide) (Or.inr (by decide))
     (Or.inl (by decide))⟩

end TTS
